import Mathlib

/-!
Shallow embedding of the owo.rs client library (whats-this/owo.rs) and proofs
about its behaviour.

The library issues HTTP requests through external engines (reqwest for the
synchronous bridge, hyper for the asynchronous one).  Those engines are
modelled as parameters: an executor is a function from a `Request` to a
transport outcome, the JSON body decoder and the URI parser are likewise
function parameters.  Each bridge operation returns, next to its result, the
list of requests it handed to the executor, so that "performs no network
request" is the trace being empty.

Two revisions of the synchronous bridge coexist in the sources
(`src/bridge/reqwest.rs`, which sets no User-Agent header, and
`src/bridge/reqwest/mod.rs`, which sets it); likewise for the asynchronous
bridge (`src/bridge/hyper.rs` and `src/bridge/hyper/mod.rs`).  The namespaces
`Reqwest`/`Hyper` embed the later revisions (the `mod.rs` files) and
`ReqwestV0`/`HyperV0` the earlier ones.
-/

namespace Owo

/-- `constants::MAX_FILES` from `src/constants.rs`: the maximum number of
files that may be uploaded in one request. -/
def MAX_FILES : Nat := 3

/-- Modelled from the spec: the crate version interpolated into the user
agent by `env!("CARGO_PKG_VERSION")` in `src/constants.rs`.  The crate
manifest is not among the source files; the crate docs in `src/lib.rs` give
the version series `~0.2`. -/
def CARGO_PKG_VERSION : String := "0.2.0"

/-- `constants::USER_AGENT` from `src/constants.rs`. -/
def USER_AGENT : String :=
  "WhatsThisClient (https://github.com/whats-this/owo.rs, "
    ++ CARGO_PKG_VERSION ++ ")"

/-- `model::UploadedFile` from `src/model.rs`: one stored file as reported by
the service.  Bytes counts are `u64` in Rust; sizes are embedded as `Nat`. -/
structure UploadedFile where
  hash : String
  name : Option String
  size : Nat
  url : String
deriving DecidableEq

/-- `model::FileUploadResponse` from `src/model.rs`. -/
structure FileUploadResponse where
  files : List UploadedFile
  success : Bool
deriving DecidableEq

/-- The unified `Error` enum from `src/error.rs`.  Each wrapped foreign error
type (`std::io::Error`, `serde_json::Error`, `native_tls::Error`,
`reqwest::Error`, `hyper::error::UriError`) is opaque to this library and is
embedded as its message string. -/
inductive Error
  | io (e : String)
  | json (e : String)
  | nativeTls (e : String)
  | reqwest (e : String)
  | tooManyFiles
  | uri (e : String)
deriving DecidableEq

/-- HTTP method of a request built by a bridge (only GET and POST occur). -/
inductive Method
  | get
  | post
deriving DecidableEq

/-- One part of a multipart form: `reqwest::multipart::Part` built by
`Part::reader(Cursor::new(file))` under a field name.  The content is the
file's byte sequence. -/
structure Part where
  name : String
  content : List Nat
deriving DecidableEq

/-- A request as a bridge builds it: method, target URL, the optional
`User-Agent` header value, and the multipart parts of the body (empty for GET
requests). -/
structure Request where
  method : Method
  target : String
  userAgent : Option String
  parts : List Part
deriving DecidableEq

/-- Outcome of handing a request to the synchronous engine: `send()` may fail
(`sendErr`, a `reqwest::Error`), reading the response body may fail
(`readErr`, an `std::io::Error`), or the whole body arrives as a string. -/
inductive SendOutcome
  | sendErr (e : String)
  | readErr (e : String)
  | body (s : String)

/-- The synchronous HTTP engine (a `reqwest::Client`), modelled as a function
from the built request to a transport outcome. -/
abbrev Exec := Request → SendOutcome

/-- The structured-decode capability (`serde_json` deserialization of a
response body into `FileUploadResponse`), modelled as a function parameter. -/
abbrev Decode := String → Except String FileUploadResponse

/-- `reqwest::multipart::Form::new()`: the empty form. -/
def Form.new : List Part := []

/-- `form.part(name, part)`: appends one named part to the form. -/
def Form.part (form : List Part) (name : String) (content : List Nat) :
    List Part :=
  form ++ [{ name := name, content := content }]

namespace Reqwest

/-- The `upload` helper of `src/bridge/reqwest/mod.rs` (lines 399-408): POSTs
the form to `uri` with the `User-Agent` header set, then decodes the body via
`serde_json::from_reader`.  A `send()` failure becomes `Error::Reqwest`; a
read or parse failure inside `from_reader` becomes `Error::Json`.  The second
component is the list of requests handed to the engine. -/
def upload (exec : Exec) (decode : Decode) (uri : String)
    (form : List Part) : Except Error FileUploadResponse × List Request :=
  let req : Request :=
    { method := Method.post, target := uri,
      userAgent := some USER_AGENT, parts := form }
  match exec req with
  | SendOutcome.sendErr e => (Except.error (Error.reqwest e), [req])
  | SendOutcome.readErr e => (Except.error (Error.json e), [req])
  | SendOutcome.body s =>
    match decode s with
    | Except.error e => (Except.error (Error.json e), [req])
    | Except.ok r => (Except.ok r, [req])

/-- `upload_file` of `src/bridge/reqwest/mod.rs` (lines 354-362). -/
def upload_file (exec : Exec) (decode : Decode) (key : String)
    (file : List Nat) : Except Error FileUploadResponse × List Request :=
  let uri := "https://api.awau.moe/upload/pomf?key=" ++ key
  let form := Form.part Form.new "files[]" file
  upload exec decode uri form

/-- `upload_files` of `src/bridge/reqwest/mod.rs` (lines 364-380): rejects
more than `MAX_FILES` payloads before building anything, else folds the
payloads into one form, in order, and uploads once. -/
def upload_files (exec : Exec) (decode : Decode) (key : String)
    (files : List (List Nat)) :
    Except Error FileUploadResponse × List Request :=
  if files.length > MAX_FILES then
    (Except.error Error.tooManyFiles, [])
  else
    let uri := "https://api.awau.moe/upload/pomf?key=" ++ key
    let form := files.foldl (fun form file => Form.part form "files[]" file)
      Form.new
    upload exec decode uri form

/-- `shorten_url` of `src/bridge/reqwest/mod.rs` (lines 382-396): one GET
with the raw-interpolated target and the `User-Agent` header; the body is
read to a string and returned verbatim.  A `send()` failure becomes
`Error::Reqwest`, a `read_to_string` failure becomes `Error::Io`. -/
def shorten_url (exec : Exec) (key url : String) :
    Except Error String × List Request :=
  let uri := "https://api.awau.moe/shorten/polr?action=shorten&url="
    ++ url ++ "&key=" ++ key
  let req : Request :=
    { method := Method.get, target := uri,
      userAgent := some USER_AGENT, parts := [] }
  match exec req with
  | SendOutcome.sendErr e => (Except.error (Error.reqwest e), [req])
  | SendOutcome.readErr e => (Except.error (Error.io e), [req])
  | SendOutcome.body s => (Except.ok s, [req])

/-- The `OwoClient` wrapper of `src/bridge/reqwest/mod.rs` (lines 28-32):
pairs the engine handle with the stored key. -/
structure OwoClient where
  client : Exec
  key : String

/-- `OwoClient::upload_file` (lines 100-103): delegates to the bridge with
the stored key. -/
def OwoClient.upload_file (c : OwoClient) (decode : Decode)
    (file : List Nat) : Except Error FileUploadResponse × List Request :=
  Reqwest.upload_file c.client decode c.key file

/-- `OwoClient::upload_files` (lines 150-154). -/
def OwoClient.upload_files (c : OwoClient) (decode : Decode)
    (files : List (List Nat)) :
    Except Error FileUploadResponse × List Request :=
  Reqwest.upload_files c.client decode c.key files

/-- `OwoClient::shorten_url` (lines 185-188). -/
def OwoClient.shorten_url (c : OwoClient) (url : String) :
    Except Error String × List Request :=
  Reqwest.shorten_url c.client c.key url

end Reqwest

namespace ReqwestV0

/-- The `upload` helper of the earlier revision `src/bridge/reqwest.rs`
(lines 222-227): identical to `Reqwest.upload` except that no `User-Agent`
header is set. -/
def upload (exec : Exec) (decode : Decode) (uri : String)
    (form : List Part) : Except Error FileUploadResponse × List Request :=
  let req : Request :=
    { method := Method.post, target := uri,
      userAgent := none, parts := form }
  match exec req with
  | SendOutcome.sendErr e => (Except.error (Error.reqwest e), [req])
  | SendOutcome.readErr e => (Except.error (Error.json e), [req])
  | SendOutcome.body s =>
    match decode s with
    | Except.error e => (Except.error (Error.json e), [req])
    | Except.ok r => (Except.ok r, [req])

/-- `upload_file` of `src/bridge/reqwest.rs` (lines 179-187). -/
def upload_file (exec : Exec) (decode : Decode) (key : String)
    (file : List Nat) : Except Error FileUploadResponse × List Request :=
  let uri := "https://api.awau.moe/upload/pomf?key=" ++ key
  let form := Form.part Form.new "files[]" file
  upload exec decode uri form

/-- `upload_files` of `src/bridge/reqwest.rs` (lines 189-205). -/
def upload_files (exec : Exec) (decode : Decode) (key : String)
    (files : List (List Nat)) :
    Except Error FileUploadResponse × List Request :=
  if files.length > MAX_FILES then
    (Except.error Error.tooManyFiles, [])
  else
    let uri := "https://api.awau.moe/upload/pomf?key=" ++ key
    let form := files.foldl (fun form file => Form.part form "files[]" file)
      Form.new
    upload exec decode uri form

/-- `shorten_url` of `src/bridge/reqwest.rs` (lines 207-219): no `User-Agent`
header in this revision. -/
def shorten_url (exec : Exec) (key url : String) :
    Except Error String × List Request :=
  let uri := "https://api.awau.moe/shorten/polr?action=shorten&url="
    ++ url ++ "&key=" ++ key
  let req : Request :=
    { method := Method.get, target := uri,
      userAgent := none, parts := [] }
  match exec req with
  | SendOutcome.sendErr e => (Except.error (Error.reqwest e), [req])
  | SendOutcome.readErr e => (Except.error (Error.io e), [req])
  | SendOutcome.body s => (Except.ok s, [req])

end ReqwestV0

/-- The URI-parsing capability (`hyper::Uri::from_str`), modelled as a
function parameter: on success it yields the parsed target (kept as the
canonical string), on failure the `UriError` message. -/
abbrev ParseUri := String → Except String String

namespace Hyper

/-- `shorten_url` of `src/bridge/hyper/mod.rs` (lines 180-191): interpolates
the target, parses it as a URI (failure becomes `Error::Uri`), builds the GET
request with the `User-Agent` header and hands it to `self.request`, which
only enqueues it.  A `FutureResponse` is modelled as the pending `Request`
itself; the second component is the I/O this call completes, which is none in
every case (per the spec, the socket I/O happens only as the caller drives
the event loop). -/
def shorten_url (parseUri : ParseUri) (key url : String) :
    Except Error Request × List Request :=
  let req_url := "https://api.awau.moe/shorten/polr?action=shorten&url="
    ++ url ++ "&key=" ++ key
  match parseUri req_url with
  | Except.error e => (Except.error (Error.uri e), [])
  | Except.ok uri =>
    let request : Request :=
      { method := Method.get, target := uri,
        userAgent := some USER_AGENT, parts := [] }
    (Except.ok request, [])

/-- The `OwoClient` wrapper of `src/bridge/hyper/mod.rs` (lines 30-34).  The
configured hyper client handle is opaque to this library. -/
structure OwoClient where
  client : Unit
  key : String

/-- `OwoClient::new` of `src/bridge/hyper/mod.rs` (lines 69-79): builds the
secure connector (`HttpsConnector::new`, a capability passed in as
`connector`, whose failure is a `native_tls::Error`), then the client.  A
connector failure becomes `Error::NativeTls` via the `?` operator.  The
second component is the list of requests attempted, which is empty in every
case. -/
def OwoClient.new (connector : Except String Unit) (key : String) :
    Except Error OwoClient × List Request :=
  match connector with
  | Except.error e => (Except.error (Error.nativeTls e), [])
  | Except.ok c => (Except.ok { client := c, key := key }, [])

/-- `OwoClient::shorten_url` of `src/bridge/hyper/mod.rs` (lines 110-113):
delegates to the bridge with the stored key. -/
def OwoClient.shorten_url (c : OwoClient) (parseUri : ParseUri)
    (url : String) : Except Error Request × List Request :=
  Hyper.shorten_url parseUri c.key url

end Hyper

namespace HyperV0

/-- `shorten_url` of the earlier revision `src/bridge/hyper.rs` (lines
77-87): identical to `Hyper.shorten_url` except that no `User-Agent` header
is set on the request. -/
def shorten_url (parseUri : ParseUri) (key url : String) :
    Except Error Request × List Request :=
  let req_url := "https://api.awau.moe/shorten/polr?action=shorten&url="
    ++ url ++ "&key=" ++ key
  match parseUri req_url with
  | Except.error e => (Except.error (Error.uri e), [])
  | Except.ok uri =>
    let request : Request :=
      { method := Method.get, target := uri,
        userAgent := none, parts := [] }
    (Except.ok request, [])

end HyperV0

/-- A JSON value, the codomain of the structured-encode capability.  `num`
carries a natural number: the only numeric field in the schema is the `u64`
size. -/
inductive Json
  | null
  | bool (b : Bool)
  | num (n : Nat)
  | str (s : String)
  | arr (elems : List Json)
  | obj (fields : List (String × Json))

/-- Modelled from the spec: serde's derived `Serialize` for
`model::UploadedFile` (the derive output is not among the source files).  A
struct serializes as an object with its fields in declaration order; an
`Option<String>` serializes `None` as JSON null, per the schema in the spec:
`{ hash: string, name: string|null, size: uint64, url: string }`. -/
def UploadedFile.toJson (f : UploadedFile) : Json :=
  Json.obj
    [("hash", Json.str f.hash),
     ("name", match f.name with
       | some n => Json.str n
       | none => Json.null),
     ("size", Json.num f.size),
     ("url", Json.str f.url)]

/-- Modelled from the spec: serde's derived `Serialize` for
`model::FileUploadResponse`, fields in declaration order (`files`, then
`success`). -/
def FileUploadResponse.toJson (r : FileUploadResponse) : Json :=
  Json.obj
    [("files", Json.arr (r.files.map UploadedFile.toJson)),
     ("success", Json.bool r.success)]

/-- Field lookup in a JSON object (by the first occurrence of the name). -/
def Json.lookupField : Json → String → Option Json
  | Json.obj fields, name => fields.lookup name
  | _, _ => none

/-- A JSON value read as a string. -/
def Json.asString : Json → Option String
  | Json.str s => some s
  | _ => none

/-- A JSON value read as an optional string: null stands for `None`. -/
def Json.asOptString : Json → Option (Option String)
  | Json.null => some none
  | Json.str s => some (some s)
  | _ => none

/-- A JSON value read as a natural number. -/
def Json.asNat : Json → Option Nat
  | Json.num n => some n
  | _ => none

/-- A JSON value read as a boolean. -/
def Json.asBool : Json → Option Bool
  | Json.bool b => some b
  | _ => none

/-- A JSON value read as an array. -/
def Json.asArr : Json → Option (List Json)
  | Json.arr elems => some elems
  | _ => none

/-- Modelled from the spec: serde's derived `Deserialize` for
`model::UploadedFile`, requiring each of the four fields with its schema
type. -/
def UploadedFile.fromJson (j : Json) : Option UploadedFile := do
  let hash ← (j.lookupField "hash").bind Json.asString
  let name ← (j.lookupField "name").bind Json.asOptString
  let size ← (j.lookupField "size").bind Json.asNat
  let url ← (j.lookupField "url").bind Json.asString
  pure { hash := hash, name := name, size := size, url := url }

/-- Decodes a JSON array element-wise into uploaded-file records. -/
def decodeFileList : List Json → Option (List UploadedFile)
  | [] => some []
  | j :: rest => do
    let f ← UploadedFile.fromJson j
    let fs ← decodeFileList rest
    pure (f :: fs)

/-- Modelled from the spec: serde's derived `Deserialize` for
`model::FileUploadResponse`. -/
def FileUploadResponse.fromJson (j : Json) : Option FileUploadResponse := do
  let filesJson ← (j.lookupField "files").bind Json.asArr
  let files ← decodeFileList filesJson
  let success ← (j.lookupField "success").bind Json.asBool
  pure { files := files, success := success }

/-- A no-op engine for concrete instantiations: every request gets an empty
body back. -/
def execStub : Exec := fun _ => SendOutcome.body ""

/-- A decode capability for concrete instantiations: every body is refused. -/
def decodeStub : Decode := fun _ => Except.error "unexpected end of input"

/-- The `upload` helper hands exactly one request to the engine: the POST to
`uri` with the `User-Agent` header and the given form, whatever the engine
and the decoder answer. -/
theorem Reqwest.upload_snd (exec : Exec) (decode : Decode) (uri : String)
    (form : List Part) :
    (Reqwest.upload exec decode uri form).2 =
      [{ method := Method.post, target := uri,
         userAgent := some USER_AGENT, parts := form }] := by
  simp only [Reqwest.upload]
  split
  · rfl
  · rfl
  · split <;> rfl

/-- The `upload` helper never produces `TooManyFiles`. -/
theorem Reqwest.upload_fst_ne_tooMany (exec : Exec) (decode : Decode)
    (uri : String) (form : List Part) :
    (Reqwest.upload exec decode uri form).1
      ≠ Except.error Error.tooManyFiles := by
  simp only [Reqwest.upload]
  split
  · simp
  · simp
  · split <;> simp

/-- Trace of the earlier revision's `upload` helper: one POST without a
`User-Agent` header. -/
theorem ReqwestV0.upload_v0_snd (exec : Exec) (decode : Decode) (uri : String)
    (form : List Part) :
    (ReqwestV0.upload exec decode uri form).2 =
      [{ method := Method.post, target := uri,
         userAgent := none, parts := form }] := by
  simp only [ReqwestV0.upload]
  split
  · rfl
  · rfl
  · split <;> rfl

/-- The earlier revision's `upload` helper never produces `TooManyFiles`. -/
theorem ReqwestV0.upload_v0_fst_ne_tooMany (exec : Exec) (decode : Decode)
    (uri : String) (form : List Part) :
    (ReqwestV0.upload exec decode uri form).1
      ≠ Except.error Error.tooManyFiles := by
  simp only [ReqwestV0.upload]
  split
  · simp
  · simp
  · split <;> simp

/-- `shorten_url` hands exactly one GET request to the engine, whatever the
engine answers. -/
theorem Reqwest.shorten_url_snd (exec : Exec) (key url : String) :
    (Reqwest.shorten_url exec key url).2 =
      [{ method := Method.get,
         target := "https://api.awau.moe/shorten/polr?action=shorten&url="
           ++ url ++ "&key=" ++ key,
         userAgent := some USER_AGENT, parts := [] }] := by
  simp only [Reqwest.shorten_url]
  split <;> rfl

/-- Trace of the earlier revision's `shorten_url`: one GET without a
`User-Agent` header. -/
theorem ReqwestV0.shorten_url_v0_snd (exec : Exec) (key url : String) :
    (ReqwestV0.shorten_url exec key url).2 =
      [{ method := Method.get,
         target := "https://api.awau.moe/shorten/polr?action=shorten&url="
           ++ url ++ "&key=" ++ key,
         userAgent := none, parts := [] }] := by
  simp only [ReqwestV0.shorten_url]
  split <;> rfl

/-- Folding payloads into a form one `part` at a time appends one `files[]`
part per payload, in order. -/
theorem form_foldl_eq_map (files : List (List Nat)) (acc : List Part) :
    files.foldl (fun form file => Form.part form "files[]" file) acc
      = acc ++ files.map (fun f => { name := "files[]", content := f }) := by
  induction files generalizing acc with
  | nil => simp
  | cons f rest ih =>
    rw [List.foldl_cons, ih]
    simp [Form.part]

/-- C1: for every key and payload list strictly longer than `MAX_FILES`
(= 3), `upload_files` (in both synchronous bridge revisions) returns
`TooManyFiles` and hands no request to the engine; for every list of length
at most 3 it never returns `TooManyFiles`. -/
theorem upload_files_tooManyFiles_boundary (exec : Exec) (decode : Decode)
    (key : String) (files : List (List Nat)) :
    (files.length > MAX_FILES →
      Reqwest.upload_files exec decode key files
          = (Except.error Error.tooManyFiles, [])
        ∧ ReqwestV0.upload_files exec decode key files
          = (Except.error Error.tooManyFiles, []))
    ∧ (files.length ≤ MAX_FILES →
      (Reqwest.upload_files exec decode key files).1
          ≠ Except.error Error.tooManyFiles
        ∧ (ReqwestV0.upload_files exec decode key files).1
          ≠ Except.error Error.tooManyFiles) := by
  constructor
  · intro h
    constructor <;>
      simp [Reqwest.upload_files, ReqwestV0.upload_files, h]
  · intro h
    have h' : ¬ files.length > MAX_FILES := Nat.not_lt.mpr h
    constructor
    · simp only [Reqwest.upload_files, if_neg h']
      exact Reqwest.upload_fst_ne_tooMany exec decode _ _
    · simp only [ReqwestV0.upload_files, if_neg h']
      exact ReqwestV0.upload_v0_fst_ne_tooMany exec decode _ _

/-- Witness for C1 at concrete inputs: four payloads are rejected with an
empty trace, one payload is not rejected. -/
theorem upload_files_tooManyFiles_boundary_witness :
    (Reqwest.upload_files execStub decodeStub "k" [[0], [1], [2], [3]]
        = (Except.error Error.tooManyFiles, [])
      ∧ ReqwestV0.upload_files execStub decodeStub "k" [[0], [1], [2], [3]]
        = (Except.error Error.tooManyFiles, []))
    ∧ ((Reqwest.upload_files execStub decodeStub "k" [[0]]).1
        ≠ Except.error Error.tooManyFiles
      ∧ (ReqwestV0.upload_files execStub decodeStub "k" [[0]]).1
        ≠ Except.error Error.tooManyFiles) :=
  ⟨(upload_files_tooManyFiles_boundary execStub decodeStub "k"
      [[0], [1], [2], [3]]).1 (by decide),
   (upload_files_tooManyFiles_boundary execStub decodeStub "k"
      [[0]]).2 (by decide)⟩

/-- C2: for every key and payload list with `1 <= length <= MAX_FILES`,
`upload_files` hands exactly one POST request to the engine, targeting
`https://api.awau.moe/upload/pomf?key={key}`, whose multipart body holds
exactly one `files[]` part per payload, in input order. -/
theorem upload_files_single_post_in_order (exec : Exec) (decode : Decode)
    (key : String) (files : List (List Nat))
    (_hlo : 1 ≤ files.length) (hhi : files.length ≤ MAX_FILES) :
    (Reqwest.upload_files exec decode key files).2 =
      [{ method := Method.post,
         target := "https://api.awau.moe/upload/pomf?key=" ++ key,
         userAgent := some USER_AGENT,
         parts := files.map
           (fun f => { name := "files[]", content := f }) }] := by
  have h' : ¬ files.length > MAX_FILES := Nat.not_lt.mpr hhi
  simp only [Reqwest.upload_files, if_neg h']
  rw [Reqwest.upload_snd, form_foldl_eq_map]
  rfl

/-- Witness for C2: two payloads produce the one expected POST request. -/
theorem upload_files_single_post_in_order_witness :
    (Reqwest.upload_files execStub decodeStub "k" [[0], [1]]).2 =
      [{ method := Method.post,
         target := "https://api.awau.moe/upload/pomf?key=" ++ "k",
         userAgent := some USER_AGENT,
         parts := [[0], [1]].map
           (fun f => { name := "files[]", content := f }) }] :=
  upload_files_single_post_in_order execStub decodeStub "k" [[0], [1]]
    (by decide) (by decide)

/-- C5: `upload_file key file` behaves exactly as
`upload_files key [file]`: the same result and the same single POST request
with the one `files[]` part. -/
theorem upload_file_eq_upload_files_singleton (exec : Exec) (decode : Decode)
    (key : String) (file : List Nat) :
    Reqwest.upload_file exec decode key file
      = Reqwest.upload_files exec decode key [file] := rfl

/-- C10: for every key, `upload_files` on the empty payload list (in both
synchronous bridge revisions) is not rejected client-side: it never returns
`TooManyFiles`, and it hands the engine exactly one POST request whose
multipart body holds zero parts. -/
theorem upload_files_empty_list_accepted (exec : Exec) (decode : Decode)
    (key : String) :
    (Reqwest.upload_files exec decode key []).1
        ≠ Except.error Error.tooManyFiles
    ∧ (Reqwest.upload_files exec decode key []).2 =
        [{ method := Method.post,
           target := "https://api.awau.moe/upload/pomf?key=" ++ key,
           userAgent := some USER_AGENT, parts := [] }]
    ∧ (ReqwestV0.upload_files exec decode key []).1
        ≠ Except.error Error.tooManyFiles
    ∧ (ReqwestV0.upload_files exec decode key []).2 =
        [{ method := Method.post,
           target := "https://api.awau.moe/upload/pomf?key=" ++ key,
           userAgent := none, parts := [] }] := by
  refine ⟨?_, ?_, ?_, ?_⟩
  · simp only [Reqwest.upload_files]
    exact Reqwest.upload_fst_ne_tooMany exec decode _ _
  · simp only [Reqwest.upload_files]
    exact Reqwest.upload_snd exec decode _ _
  · simp only [ReqwestV0.upload_files]
    exact ReqwestV0.upload_v0_fst_ne_tooMany exec decode _ _
  · simp only [ReqwestV0.upload_files]
    exact ReqwestV0.upload_v0_snd exec decode _ _

/-- Witness for C10 at a concrete key and engine. -/
theorem upload_files_empty_list_accepted_witness :
    (Reqwest.upload_files execStub decodeStub "k" []).1
        ≠ Except.error Error.tooManyFiles
    ∧ (Reqwest.upload_files execStub decodeStub "k" []).2 =
        [{ method := Method.post,
           target := "https://api.awau.moe/upload/pomf?key=" ++ "k",
           userAgent := some USER_AGENT, parts := [] }]
    ∧ (ReqwestV0.upload_files execStub decodeStub "k" []).1
        ≠ Except.error Error.tooManyFiles
    ∧ (ReqwestV0.upload_files execStub decodeStub "k" []).2 =
        [{ method := Method.post,
           target := "https://api.awau.moe/upload/pomf?key=" ++ "k",
           userAgent := none, parts := [] }] :=
  upload_files_empty_list_accepted execStub decodeStub "k"

/-- Counterexample to C3 as stated: at a concrete engine, key and url, the
earliest synchronous bridge revision (`src/bridge/reqwest.rs`) issues its
request with no `User-Agent` header at all, not with the fixed value. -/
theorem user_agent_missing_in_first_revision :
    (ReqwestV0.shorten_url execStub "k" "https://example.com").2.map
        Request.userAgent = [none]
      ∧ (none : Option String) ≠ some USER_AGENT := by
  constructor
  · rfl
  · simp

/-- C3 (amended): every request handed to the engine by the later
synchronous bridge revision (`src/bridge/reqwest/mod.rs`) and every pending
request built by the later asynchronous revision (`src/bridge/hyper/mod.rs`)
carries the fixed `User-Agent` value, whereas the earliest revisions
(`src/bridge/reqwest.rs`, `src/bridge/hyper.rs`) attach no `User-Agent`
header to their requests. -/
theorem user_agent_on_current_bridges (exec : Exec) (decode : Decode)
    (parseUri : ParseUri) (key url : String) (file : List Nat)
    (files : List (List Nat)) :
    (∀ r ∈ (Reqwest.upload_file exec decode key file).2,
        r.userAgent = some USER_AGENT)
    ∧ (∀ r ∈ (Reqwest.upload_files exec decode key files).2,
        r.userAgent = some USER_AGENT)
    ∧ (∀ r ∈ (Reqwest.shorten_url exec key url).2,
        r.userAgent = some USER_AGENT)
    ∧ (∀ req io, Hyper.shorten_url parseUri key url = (Except.ok req, io) →
        req.userAgent = some USER_AGENT)
    ∧ (∀ r ∈ (ReqwestV0.upload_file exec decode key file).2,
        r.userAgent = none)
    ∧ (∀ r ∈ (ReqwestV0.upload_files exec decode key files).2,
        r.userAgent = none)
    ∧ (∀ r ∈ (ReqwestV0.shorten_url exec key url).2, r.userAgent = none)
    ∧ (∀ req io, HyperV0.shorten_url parseUri key url = (Except.ok req, io) →
        req.userAgent = none) := by
  refine ⟨?_, ?_, ?_, ?_, ?_, ?_, ?_, ?_⟩
  · intro r hr
    rw [Reqwest.upload_file, Reqwest.upload_snd] at hr
    simp only [List.mem_singleton] at hr
    rw [hr]
  · intro r hr
    by_cases h : files.length > MAX_FILES
    · simp [Reqwest.upload_files, h] at hr
    · rw [Reqwest.upload_files, if_neg h, Reqwest.upload_snd] at hr
      simp only [List.mem_singleton] at hr
      rw [hr]
  · intro r hr
    rw [Reqwest.shorten_url_snd] at hr
    simp only [List.mem_singleton] at hr
    rw [hr]
  · intro req io h
    simp only [Hyper.shorten_url] at h
    cases hp : parseUri ("https://api.awau.moe/shorten/polr?action=shorten&url="
        ++ url ++ "&key=" ++ key) with
    | error e => rw [hp] at h; simp at h
    | ok u =>
      rw [hp] at h
      simp only [Prod.mk.injEq, Except.ok.injEq] at h
      rw [← h.1]
  · intro r hr
    rw [ReqwestV0.upload_file, ReqwestV0.upload_v0_snd] at hr
    simp only [List.mem_singleton] at hr
    rw [hr]
  · intro r hr
    by_cases h : files.length > MAX_FILES
    · simp [ReqwestV0.upload_files, h] at hr
    · rw [ReqwestV0.upload_files, if_neg h, ReqwestV0.upload_v0_snd] at hr
      simp only [List.mem_singleton] at hr
      rw [hr]
  · intro r hr
    rw [ReqwestV0.shorten_url_v0_snd] at hr
    simp only [List.mem_singleton] at hr
    rw [hr]
  · intro req io h
    simp only [HyperV0.shorten_url] at h
    cases hp : parseUri ("https://api.awau.moe/shorten/polr?action=shorten&url="
        ++ url ++ "&key=" ++ key) with
    | error e => rw [hp] at h; simp at h
    | ok u =>
      rw [hp] at h
      simp only [Prod.mk.injEq, Except.ok.injEq] at h
      rw [← h.1]

/-- Witness for C3 (amended): at a concrete engine, key and url, the one
request the later synchronous revision hands the engine carries the fixed
`User-Agent` value. -/
theorem user_agent_on_current_bridges_witness :
    ({ method := Method.get,
       target := "https://api.awau.moe/shorten/polr?action=shorten&url="
         ++ "https://example.com" ++ "&key=" ++ "k",
       userAgent := some USER_AGENT, parts := [] } : Request).userAgent
      = some USER_AGENT :=
  (user_agent_on_current_bridges execStub decodeStub
      (fun s => Except.ok s) "k" "https://example.com" [] []).2.2.1 _
    (by rw [Reqwest.shorten_url_snd]; exact List.mem_singleton.mpr rfl)

/-- C4: for every engine, key and url, the synchronous bridge's
`shorten_url` hands the engine exactly one GET request whose target is the
raw-interpolated shortener URL, and when the engine delivers a body it is
returned as the result, unmodified. -/
theorem reqwest_shorten_url_get_and_raw_body (exec : Exec)
    (key url : String) :
    (Reqwest.shorten_url exec key url).2 =
      [{ method := Method.get,
         target := "https://api.awau.moe/shorten/polr?action=shorten&url="
           ++ url ++ "&key=" ++ key,
         userAgent := some USER_AGENT, parts := [] }]
    ∧ ∀ s, exec { method := Method.get,
                  target :=
                    "https://api.awau.moe/shorten/polr?action=shorten&url="
                      ++ url ++ "&key=" ++ key,
                  userAgent := some USER_AGENT,
                  parts := [] } = SendOutcome.body s →
        (Reqwest.shorten_url exec key url).1 = Except.ok s := by
  constructor
  · exact Reqwest.shorten_url_snd exec key url
  · intro s h
    simp only [Reqwest.shorten_url, h]

/-- Witness for C4: a concrete engine answering a fixed body yields exactly
that body as the result. -/
theorem reqwest_shorten_url_get_and_raw_body_witness :
    (Reqwest.shorten_url (fun _ => SendOutcome.body "https://owo.gg/x")
        "k" "https://example.com").2 =
      [{ method := Method.get,
         target := "https://api.awau.moe/shorten/polr?action=shorten&url="
           ++ "https://example.com" ++ "&key=" ++ "k",
         userAgent := some USER_AGENT, parts := [] }]
    ∧ (Reqwest.shorten_url (fun _ => SendOutcome.body "https://owo.gg/x")
        "k" "https://example.com").1 = Except.ok "https://owo.gg/x" :=
  ⟨(reqwest_shorten_url_get_and_raw_body _ "k" "https://example.com").1,
   (reqwest_shorten_url_get_and_raw_body _ "k" "https://example.com").2
     "https://owo.gg/x" rfl⟩

/-- C6: the asynchronous bridge's `shorten_url` builds the request target
immediately: when the interpolated string fails to parse as a URI it returns
`Error::Uri` with an empty completed-I/O trace; otherwise it returns the
pending request without completing any I/O. -/
theorem hyper_shorten_url_invalid_uri_before_io (parseUri : ParseUri)
    (key url : String) :
    (∀ e, parseUri ("https://api.awau.moe/shorten/polr?action=shorten&url="
        ++ url ++ "&key=" ++ key) = Except.error e →
      Hyper.shorten_url parseUri key url = (Except.error (Error.uri e), []))
    ∧ (∀ u, parseUri ("https://api.awau.moe/shorten/polr?action=shorten&url="
        ++ url ++ "&key=" ++ key) = Except.ok u →
      Hyper.shorten_url parseUri key url =
        (Except.ok { method := Method.get, target := u,
                     userAgent := some USER_AGENT, parts := [] }, [])) := by
  constructor
  · intro e h
    simp only [Hyper.shorten_url, h]
  · intro u h
    simp only [Hyper.shorten_url, h]

/-- Witness for C6: a parser refusing the target yields the `Uri` error and
no I/O; a parser accepting it yields the pending request and no I/O. -/
theorem hyper_shorten_url_invalid_uri_before_io_witness :
    Hyper.shorten_url (fun _ => Except.error "invalid uri character")
        "k" "https://example.com"
      = (Except.error (Error.uri "invalid uri character"), [])
    ∧ Hyper.shorten_url (fun s => Except.ok s) "k" "https://example.com"
      = (Except.ok { method := Method.get,
                     target :=
                       "https://api.awau.moe/shorten/polr?action=shorten&url="
                         ++ "https://example.com" ++ "&key=" ++ "k",
                     userAgent := some USER_AGENT, parts := [] }, []) :=
  ⟨(hyper_shorten_url_invalid_uri_before_io _ "k" "https://example.com").1
     _ rfl,
   (hyper_shorten_url_invalid_uri_before_io _ "k" "https://example.com").2
     _ rfl⟩

/-- C7: constructing the asynchronous bridge's client returns
`Error::NativeTls` when the secure connector construction fails, attempting
no request; on success it returns a client holding the given key
unchanged, again attempting no request. -/
theorem hyper_client_new_tls_and_key (connector : Except String Unit)
    (key : String) :
    (∀ e, connector = Except.error e →
      Hyper.OwoClient.new connector key
        = (Except.error (Error.nativeTls e), []))
    ∧ (∀ c, connector = Except.ok c →
      Hyper.OwoClient.new connector key
        = (Except.ok { client := c, key := key }, [])) := by
  constructor
  · intro e h
    rw [h]
    rfl
  · intro c h
    rw [h]
    rfl

/-- Witness for C7: a failing connector yields the TLS error and no request;
a succeeding connector yields a client holding the key. -/
theorem hyper_client_new_tls_and_key_witness :
    Hyper.OwoClient.new (Except.error "handshake setup failed") "k"
      = (Except.error (Error.nativeTls "handshake setup failed"), [])
    ∧ Hyper.OwoClient.new (Except.ok ()) "k"
      = (Except.ok { client := (), key := "k" }, []) :=
  ⟨(hyper_client_new_tls_and_key _ "k").1 _ rfl,
   (hyper_client_new_tls_and_key _ "k").2 _ rfl⟩

/-- C8: the client wrappers are pure delegation: each wrapper operation
returns exactly what the corresponding bridge function returns on the stored
key and the given arguments. -/
theorem owo_client_delegation (c : Reqwest.OwoClient) (hc : Hyper.OwoClient)
    (decode : Decode) (parseUri : ParseUri) (file : List Nat)
    (files : List (List Nat)) (url : String) :
    c.upload_file decode file
        = Reqwest.upload_file c.client decode c.key file
    ∧ c.upload_files decode files
        = Reqwest.upload_files c.client decode c.key files
    ∧ c.shorten_url url = Reqwest.shorten_url c.client c.key url
    ∧ hc.shorten_url parseUri url
        = Hyper.shorten_url parseUri hc.key url :=
  ⟨rfl, rfl, rfl, rfl⟩

/-- Each uploaded-file record decodes back from its own encoding. -/
theorem uploadedFile_fromJson_toJson (f : UploadedFile) :
    UploadedFile.fromJson f.toJson = some f := by
  cases f with
  | mk hash name size url => cases name <;> rfl

/-- A list of uploaded-file records decodes back from its element-wise
encoding. -/
theorem decodeFileList_map_toJson (fs : List UploadedFile) :
    decodeFileList (fs.map UploadedFile.toJson) = some fs := by
  induction fs with
  | nil => rfl
  | cons f rest ih =>
    simp [decodeFileList, uploadedFile_fromJson_toJson, ih]

/-- C9: for every `FileUploadResponse` value, serializing it to JSON and
deserializing the result yields the original value. -/
theorem fileUploadResponse_json_roundtrip (r : FileUploadResponse) :
    FileUploadResponse.fromJson r.toJson = some r := by
  cases r with
  | mk files success =>
    have h : FileUploadResponse.fromJson
          (FileUploadResponse.mk files success).toJson
        = (decodeFileList (files.map UploadedFile.toJson)).bind
            (fun fs => some (FileUploadResponse.mk fs success)) := rfl
    rw [h, decodeFileList_map_toJson]
    rfl

end Owo
